import Mathlib

/-!
Shallow embedding of the pykad routing subsystem.

Python sources embedded here: `kad_config.py`, `node_data.py`, `bucket.py`,
`routing_table.py`, `queue_manager.py`, `message/message.py`,
`message/ping_node.py`, `message/ping_node_reponse.py`,
`message_supervisor/message_supervisor.py`, `message_supervisor/ping.py`,
`node.py`.

Modelling conventions:
* machine integers are `Nat` (Python ints are unbounded; ids are produced
  `< 2 ^ id_length` and the bound appears as a hypothesis where relevant);
* a Python `dict` is the list of its entries in insertion order (Python
  dicts iterate in insertion order);
* a method that can raise returns `PyResult α = α × Option String`: the
  first component is the object state at the moment the call returns or
  raises (Python keeps mutations made before a raise), the second is the
  exception text (`none` means a normal return);
* `time()` is passed explicitly as a `now : Nat` argument;
* the process-wide collaborators (`QueueManager.__shared_queues`,
  `Uid.__shared_uid`, `Message.__shared_request_id_reference`) and the
  trace of datagrams put on queues are carried as extra state fields.
-/

/-- kad_config.py `KadConfig`: constructor parameters, in order. -/
structure KadConfig where
  id_length : Nat
  alpha : Nat
  k : Nat
  message_find_node_timeout : Nat
  message_ping_node_timeout : Nat
  inserter_scanner_period : Nat
deriving DecidableEq, Repr

/-- node_data.py `NodeData`: a node id together with its last-seen timestamp. -/
structure NodeData where
  identifier : Nat
  last_seen_date : Nat
deriving DecidableEq, Repr

/-- bucket.py `Bucket`: the dict `__shared_nodes` keyed by node id, in
insertion order (`__size_limit` is passed explicitly to `add_node`). -/
structure Bucket where
  nodes : List NodeData
deriving DecidableEq, Repr

/-- bucket.py `Bucket.contains_node`: dict key membership. -/
def Bucket.contains_node (b : Bucket) (identifier : Nat) : Bool :=
  b.nodes.any (fun nd => nd.identifier == identifier)

/-- bucket.py `Bucket.count`. -/
def Bucket.count (b : Bucket) : Nat :=
  b.nodes.length

/-- bucket.py `Bucket.get_all_nodes_ids`: ids in dict (= insertion) order. -/
def Bucket.get_all_nodes_ids (b : Bucket) : List Nat :=
  b.nodes.map NodeData.identifier

/-- bucket.py `Bucket.add_node`: `(False, True)` if the id is already
present, `(False, False)` if the bucket holds `size_limit` entries,
otherwise insert and `(True, False)`; the (possibly updated) bucket is
returned alongside. -/
def Bucket.add_node (size_limit : Nat) (b : Bucket) (node_data : NodeData) :
    (Bool × Bool) × Bucket :=
  if b.contains_node node_data.identifier then ((false, true), b)
  else if b.nodes.length == size_limit then ((false, false), b)
  else ((true, false), ⟨b.nodes ++ [node_data]⟩)

/-- bucket.py `Bucket.remove_node`: raises when the id is absent. -/
def Bucket.remove_node (b : Bucket) (identifier : Nat) : Except String Bucket :=
  if b.contains_node identifier then
    .ok ⟨b.nodes.filter (fun nd => nd.identifier ≠ identifier)⟩
  else
    .error "Exception: unexpected node identifier, it should be in the k-bucket"

/-- bucket.py `Bucket.get_least_recently_seen`:
`sorted(values, key=attrgetter(last_seen_date))[0]` of a non-empty bucket
(Python's sort is a stable sort by the key, hence the stable
`insertionSort`), `none` when empty. -/
def Bucket.get_least_recently_seen (b : Bucket) : Option Nat :=
  ((b.nodes.insertionSort (fun x y => x.last_seen_date ≤ y.last_seen_date)).head?).map
    NodeData.identifier

/-- bucket.py `Bucket.set_most_recently_seen`: set `last_seen_date` to
`ceil(time())` in place when the id is present, no-op otherwise. -/
def Bucket.set_most_recently_seen (b : Bucket) (node_id : Nat) (now : Nat) : Bucket :=
  ⟨b.nodes.map (fun nd =>
    if nd.identifier = node_id then { nd with last_seen_date := now } else nd)⟩

/-- message/ping_node.py `PingNode` as constructed by
`routing_table.py` (`uid`, `sender_id`, `recipient_id`, `request_id`).
`recipient` is an `Option` because `__ping_for_replacement` passes the
least-recently-seen id, which is Python `None` for an empty bucket. -/
structure PingNode where
  uid : Nat
  sender_id : Nat
  recipient : Option Nat
  request_id : Nat
deriving DecidableEq, Repr

/-- message/ping_node_reponse.py `PingNodeResponse` (the fields
`routing_table.py` and `node.py` read). -/
structure PingNodeResponse where
  uid : Nat
  sender_id : Nat
  recipient : Nat
  request_id : Nat
deriving DecidableEq, Repr

/-- One entry of `MessageSupervisor.__messages`
(message_supervisor/message_supervisor.py): a supervised request id with
its expiration timestamp and the callback arguments `[message,
replacement_node_id]` stored by `Ping.add`. -/
structure PingRecord where
  request_id : Nat
  expiration : Nat
  message : PingNode
  replacement : Nat
deriving DecidableEq, Repr

/-- message_supervisor/message_supervisor.py `MessageSupervisor._del`:
idempotent removal by request id. -/
def supervisor_delete (records : List PingRecord) (request_id : Nat) : List PingRecord :=
  records.filter (fun r => r.request_id ≠ request_id)

/-- message_supervisor/message_supervisor.py `MessageSupervisor._add`:
raises on a duplicate request id, otherwise stores the record. -/
def supervisor_add (records : List PingRecord) (r : PingRecord) :
    Except String (List PingRecord) :=
  if records.any (fun q => q.request_id == r.request_id) then
    .error "Exception: unexpected error, the message ID is already in use"
  else
    .ok (records ++ [r])

/-- queue_manager.py `QueueManager.is_node_running`: membership in the
process-wide queue dict. The Python method returns a `bool` — never
`None`; it is wrapped in `some` so that call sites can translate Python's
`is None` test on the returned value. -/
def QueueManager.is_node_running (queues : List Nat) (node_id : Nat) : Option Bool :=
  some (decide (node_id ∈ queues))

/-- queue_manager.py `QueueManager.get_queue`: `some` of the queue handle
(identified by the owner id) when registered, else `None`; a `None`
argument is simply not a dict key. -/
def QueueManager.get_queue (queues : List Nat) (node_id : Option Nat) : Option Nat :=
  match node_id with
  | none => none
  | some n => if n ∈ queues then some n else none

/-- Python call outcome: the object state when the call returns or raises,
plus the exception text when it raised (`none` = normal return). -/
abbrev PyResult (α : Type) := α × Option String

/-- The state of routing_table.py `RoutingTable` plus the process-wide
collaborators it calls: `queues` is `QueueManager.__shared_queues` (the
registered node ids), `sent` the trace of PING datagrams put on queues by
`message.send()`, `uid_counter` is `Uid.__shared_uid` and
`request_counter` is `Message.__shared_request_id_reference`. -/
structure RoutingTable where
  config : KadConfig
  identifier : Nat
  buckets : List Bucket
  insertion_pools : List (List (Nat × Nat))
  busy_flags : List Bool
  ping_records : List PingRecord
  queues : List Nat
  sent : List PingNode
  uid_counter : Nat
  request_counter : Nat
deriving DecidableEq, Repr

/-- routing_table.py `RoutingTable.__init__`: `id_length` empty buckets,
empty insertion pools, all busy flags `False`, no supervised PINGs. -/
def RoutingTable.init (identifier : Nat) (config : KadConfig) (queues : List Nat) :
    RoutingTable :=
  { config := config
    identifier := identifier
    buckets := List.replicate config.id_length ⟨[]⟩
    insertion_pools := List.replicate config.id_length []
    busy_flags := List.replicate config.id_length false
    ping_records := []
    queues := queues
    sent := []
    uid_counter := 0
    request_counter := 0 }

/-- routing_table.py `RoutingTable.__init_bucket_masks`:
`mask[i] = (identifier >> i) ^ 1`. -/
def RoutingTable.bucket_mask (rt : RoutingTable) (i : Nat) : Nat :=
  (rt.identifier >>> i) ^^^ 1

/-- routing_table.py `RoutingTable.__find_bucket_index`: scan `i` from 0
to `id_length - 1` and return the first `i` with
`(identifier >> i) ^ mask[i] == 0`, `none` if no index matches. -/
def RoutingTable.find_bucket_index (rt : RoutingTable) (identifier : Nat) : Option Nat :=
  (List.range rt.config.id_length).find?
    (fun i => (identifier >>> i) ^^^ rt.bucket_mask i == 0)

/-- routing_table.py `RoutingTable.add_node`. `message` carries the
request id of the triggering message (`message.request_id` is the only
field the method reads); `none` models Python `None`. `now` models
`floor(time())`. A `None` bucket index would make `self.__shared_buckets[None]`
raise a `TypeError`. -/
def RoutingTable.add_node (rt : RoutingTable) (node_id : Nat) (message : Option Nat)
    (now : Nat) : PyResult RoutingTable :=
  if node_id = rt.identifier then
    (rt, some "Exception: the local node should not be inserted into the routing table")
  else
    match rt.find_bucket_index node_id with
    | none => (rt, some "TypeError: tuple indices must be integers, not NoneType")
    | some bucket_index =>
      let res := Bucket.add_node rt.config.k (rt.buckets.getD bucket_index ⟨[]⟩)
        ⟨node_id, now⟩
      let added := res.1.1
      let already_in := res.1.2
      let rt1 := { rt with buckets := rt.buckets.set bucket_index res.2 }
      match message with
      | none => (rt1, none)
      | some request_id =>
        if !added && !already_in then
          if (rt1.insertion_pools.getD bucket_index []).all (fun p => p.1 ≠ node_id) then
            let pool2 := (rt1.insertion_pools.getD bucket_index []) ++ [(node_id, request_id)]
            ({ rt1 with insertion_pools := rt1.insertion_pools.set bucket_index pool2 },
             none)
          else (rt1, none)
        else (rt1, none)

/-- The id-gathering loop of routing_table.py `RoutingTable.find_closest`:
`ids.extend(bucket.get_all_nodes_ids())` over all buckets. -/
def RoutingTable.all_ids (rt : RoutingTable) : List Nat :=
  rt.buckets.foldl (fun acc b => acc ++ Bucket.get_all_nodes_ids b) []

/-- routing_table.py `RoutingTable.find_closest`:
`sorted(ids, key=lambda pid: node_id ^ pid)[0:count]` (Python's stable
sort by the key, hence the stable `insertionSort`). -/
def RoutingTable.find_closest (rt : RoutingTable) (node_id : Nat) (count : Nat) :
    List Nat :=
  (rt.all_ids.insertionSort (fun a b => node_id ^^^ a ≤ node_id ^^^ b)).take count

/-- routing_table.py `RoutingTable.__get_least_recently_seen`. -/
def RoutingTable.get_least_recently_seen (rt : RoutingTable) (bucket_id : Nat) :
    Option Nat :=
  Bucket.get_least_recently_seen (rt.buckets.getD bucket_id ⟨[]⟩)

/-- routing_table.py `RoutingTable.__set_most_recently_seen`: when the
caller passes `None` as the bucket index the method recomputes it, and a
still-`None` index makes the tuple indexing raise. `now` models
`ceil(time())` inside `Bucket.set_most_recently_seen`. -/
def RoutingTable.set_most_recently_seen_rt (rt : RoutingTable) (node_id : Nat)
    (bucket_idx : Option Nat) (now : Nat) : PyResult RoutingTable :=
  match bucket_idx.orElse (fun _ => rt.find_bucket_index node_id) with
  | none => (rt, some "TypeError: tuple indices must be integers, not NoneType")
  | some i =>
    let b2 := Bucket.set_most_recently_seen (rt.buckets.getD i ⟨[]⟩) node_id now
    ({ rt with buckets := rt.buckets.set i b2 }, none)

/-- routing_table.py `RoutingTable.__evict_node` (both call sites pass no
explicit bucket index, so it is always recomputed). -/
def RoutingTable.evict_node (rt : RoutingTable) (node_id : Nat) : PyResult RoutingTable :=
  match rt.find_bucket_index node_id with
  | none => (rt, some "TypeError: tuple indices must be integers, not NoneType")
  | some i =>
    match Bucket.remove_node (rt.buckets.getD i ⟨[]⟩) node_id with
    | .error e => (rt, some e)
    | .ok b2 => ({ rt with buckets := rt.buckets.set i b2 }, none)

/-- routing_table.py `RoutingTable.notify_ping_response`: delete the
supervised record, locate the sender's bucket, mark the sender most
recently seen, clear the pool busy flag. Nothing touches the insertion
pools. -/
def RoutingTable.notify_ping_response (rt : RoutingTable) (message : PingNodeResponse)
    (now : Nat) : PyResult RoutingTable :=
  let rt1 := { rt with ping_records := supervisor_delete rt.ping_records message.request_id }
  let bucket_id := rt1.find_bucket_index message.sender_id
  match rt1.set_most_recently_seen_rt message.sender_id bucket_id now with
  | (rt2, some e) => (rt2, some e)
  | (rt2, none) =>
    match bucket_id with
    | none => (rt2, some "TypeError: list indices must be integers, not NoneType")
    | some i => ({ rt2 with busy_flags := rt2.busy_flags.set i false }, none)

/-- routing_table.py `RoutingTable.__thread_ping_no_response`: evict the
PING's recipient, re-insert the replacement with no message context, then
clear the busy flag of the evicted node's bucket. A `None` recipient makes
`__find_bucket_index` raise (`None >> i`). A raise mid-way keeps the
mutations already made. -/
def RoutingTable.thread_ping_no_response (rt : RoutingTable) (message : PingNode)
    (replacement_node_id : Nat) (now : Nat) : PyResult RoutingTable :=
  match message.recipient with
  | none => (rt, some "TypeError: unsupported operand type for >>: NoneType and int")
  | some node_to_evict =>
    match rt.evict_node node_to_evict with
    | (rt1, some e) => (rt1, some e)
    | (rt1, none) =>
      match rt1.add_node replacement_node_id none now with
      | (rt2, some e) => (rt2, some e)
      | (rt2, none) =>
        match rt2.find_bucket_index node_to_evict with
        | none => (rt2, some "TypeError: list indices must be integers, not NoneType")
        | some i => ({ rt2 with busy_flags := rt2.busy_flags.set i false }, none)

/-- routing_table.py `RoutingTable.__ping_for_replacement`: draw a fresh
uid and request id, ping the least-recently-seen node of the bucket, and
either treat a missing queue as an immediate no-response or send the PING
and register it with the supervisor (`expiry = now + ping timeout`). When
the bucket is empty the least-recently-seen id is `None` and the `print`
before `__thread_ping_no_response` raises on formatting it with `{:d}`.
`message_request_id` is only used for logging. -/
def RoutingTable.ping_for_replacement (rt : RoutingTable) (bucket_idx : Nat)
    (new_node_to_insert_id : Nat) (message_request_id : Nat) (now : Nat) :
    PyResult RoutingTable :=
  let uid := rt.uid_counter + 1
  let rt0 := { rt with uid_counter := uid }
  let lrs := rt0.get_least_recently_seen bucket_idx
  let request_id := rt0.request_counter + 1
  let rt1 := { rt0 with request_counter := request_id }
  let message : PingNode := ⟨uid, rt1.identifier, lrs, request_id⟩
  match QueueManager.get_queue rt1.queues lrs with
  | none =>
    match lrs with
    | none => (rt1, some "TypeError: unsupported format string passed to NoneType")
    | some _ => rt1.thread_ping_no_response message new_node_to_insert_id now
  | some _ =>
    let rt2 := { rt1 with sent := rt1.sent ++ [message] }
    match supervisor_add rt2.ping_records
        ⟨request_id, now + rt2.config.message_ping_node_timeout, message,
         new_node_to_insert_id⟩ with
    | .error e => (rt2, some e)
    | .ok recs => ({ rt2 with ping_records := recs }, none)

/-- One iteration of the inner loop of routing_table.py
`RoutingTable.__thread_inserter` for one bucket: skip when busy, else pick
`list(pool.items()).pop()` — the last pool entry, popped from a *copy* of
the items, so the pool itself is left unchanged — set the busy flag and
run `__ping_for_replacement`. -/
def RoutingTable.scan_bucket (rt : RoutingTable) (bucket_id : Nat) (now : Nat) :
    PyResult RoutingTable :=
  if rt.busy_flags.getD bucket_id false then (rt, none)
  else
    match (rt.insertion_pools.getD bucket_id []).getLast? with
    | none => (rt, none)
    | some (node_id, request_id) =>
      let rt1 := { rt with busy_flags := rt.busy_flags.set bucket_id true }
      rt1.ping_for_replacement bucket_id node_id request_id now

/-- The mutating entry points of the routing table, as its threads invoke
them. A Python exception kills the calling thread and the object keeps the
state reached at the raise — the first component of `PyResult`. -/
inductive RTOp where
  | add (node_id : Nat) (message : Option Nat) (now : Nat)
  | notify (message : PingNodeResponse) (now : Nat)
  | scan (bucket_id : Nat) (now : Nat)
  | timeout (message : PingNode) (replacement : Nat) (now : Nat)

/-- Apply one entry point, keeping the state reached even on a raise. -/
def RoutingTable.applyOp (rt : RoutingTable) : RTOp → RoutingTable
  | .add n m now => (rt.add_node n m now).1
  | .notify msg now => (rt.notify_ping_response msg now).1
  | .scan b now => (rt.scan_bucket b now).1
  | .timeout msg r now => (rt.thread_ping_no_response msg r now).1

/-- A reachable state: the initial table after a sequence of entry points. -/
def RoutingTable.run (rt : RoutingTable) (ops : List RTOp) : RoutingTable :=
  ops.foldl RoutingTable.applyOp rt

/-- The invariant of claim C8: the local id appears in no bucket. -/
def RoutingTable.NoSelf (rt : RoutingTable) : Prop :=
  ∀ b ∈ rt.buckets, ∀ nd ∈ b.nodes, nd.identifier ≠ rt.identifier

/-! ### node.py embedding -/

/-- message/message.py `MessageName`. -/
inductive MessageName where
  | FIND_NODE
  | FIND_NODE_RESPONSE
  | PING_NODE
  | PING_NODE_RESPONSE
  | TERMINATE_NODE
  | DISCONNECT_NODE
  | RECONNECT_NODE
deriving DecidableEq, Repr

/-- message/message.py `Message`, flattened over its subclasses: the
header fields every message carries plus `node_id` (the `FindNode`
target) and `node_ids` (the `FindNodeResponse` payload), which the other
message kinds leave unused. -/
structure InMessage where
  uid : Nat
  request_id : Nat
  message_name : MessageName
  recipient : Nat
  sender_id : Nat
  node_id : Nat
  node_ids : List Nat
deriving DecidableEq, Repr

/-- A datagram emitted by a node handler (`FIND_NODE_RESPONSE` or
`PING_NODE_RESPONSE`; `node_ids` is empty for the latter). -/
structure OutMessage where
  uid : Nat
  sender_id : Nat
  recipient : Nat
  request_id : Nat
  message_name : MessageName
  node_ids : List Nat
deriving DecidableEq, Repr

/-- node.py `Node`: the connection flag, the routing table (which carries
the process-wide registry and counters), the node's own PING supervisor
(`Node.__ping_supervisor`: its record map and its `__continue` flag) and
the trace of responses the handlers put on peer queues. -/
structure Node where
  local_node_id : Nat
  connected : Bool
  rt : RoutingTable
  node_ping_records : List PingRecord
  node_supervisor_continue : Bool
  responses : List OutMessage
deriving DecidableEq, Repr

/-- node.py `Node.__add_node_id_to_routing_table`: calls
`routing_table.add_node(node_id)` — with no message argument — and then
unpacks the returned value into `added, already_in, bucket_idx`; since
`RoutingTable.add_node` returns `None`, the unpacking raises a
`TypeError` after the routing-table mutation took place. -/
def Node.add_node_id_to_routing_table (nd : Node) (node_id_to_add : Nat) (now : Nat) :
    PyResult Node :=
  match nd.rt.add_node node_id_to_add none now with
  | (rt1, some e) => ({ nd with rt := rt1 }, some e)
  | (rt1, none) =>
    ({ nd with rt := rt1 }, some "TypeError: cannot unpack non-iterable NoneType object")

/-- node.py `Node.__process_terminate_node`: deregister the node from the
QueueManager, stop the node's PING supervisor, return `False` (stop the
listener loop). -/
def Node.process_terminate_node (nd : Node) (message : InMessage) :
    PyResult (Node × Bool) :=
  let rt1 := { nd.rt with queues := nd.rt.queues.filter (fun q => q ≠ nd.local_node_id) }
  (({ nd with rt := rt1, node_supervisor_continue := false }, false), none)

/-- node.py `Node.__process_disconnect_node`: clear the connected flag. -/
def Node.process_disconnect_node (nd : Node) (message : InMessage) :
    PyResult (Node × Bool) :=
  (({ nd with connected := false }, true), none)

/-- node.py `Node.__process_reconnect_node`: set the connected flag. -/
def Node.process_reconnect_node (nd : Node) (message : InMessage) :
    PyResult (Node × Bool) :=
  (({ nd with connected := true }, true), none)

/-- node.py `Node.__process_find_node`: answer with the `id_length`
closest ids, then add the sender via `__add_node_id_to_routing_table`
(whose tuple unpacking raises after the insertion); `response.send()`
raises `AttributeError` (`None.put`) when the sender's queue is gone. -/
def Node.process_find_node (nd : Node) (message : InMessage) (now : Nat) :
    PyResult (Node × Bool) :=
  let uid := nd.rt.uid_counter + 1
  let nd0 := { nd with rt := { nd.rt with uid_counter := uid } }
  let closest := nd0.rt.find_closest message.node_id nd0.rt.config.id_length
  let response : OutMessage :=
    ⟨uid, nd0.local_node_id, message.sender_id, message.request_id,
     .FIND_NODE_RESPONSE, closest⟩
  match QueueManager.get_queue nd0.rt.queues (some message.sender_id) with
  | none => ((nd0, true), some "AttributeError: NoneType object has no attribute put")
  | some _ =>
    let nd1 := { nd0 with responses := nd0.responses ++ [response] }
    match nd1.add_node_id_to_routing_table message.sender_id now with
    | (nd2, some e) => ((nd2, true), some e)
    | (nd2, none) => ((nd2, true), none)

/-- node.py `Node.__process_find_node_response`: insert each carried id —
the first loop iteration already raises when unpacking `add_node`'s
`None` return into `added, already_in, bucket_idx`; an empty payload
skips the loop and returns normally. -/
def Node.process_find_node_response (nd : Node) (message : InMessage) (now : Nat) :
    PyResult (Node × Bool) :=
  match message.node_ids with
  | [] => ((nd, true), none)
  | node_id :: _ =>
    match nd.rt.add_node node_id none now with
    | (rt1, some e) => (({ nd with rt := rt1 }, true), some e)
    | (rt1, none) =>
      (({ nd with rt := rt1 }, true),
       some "TypeError: cannot unpack non-iterable NoneType object")

/-- node.py `Node.__process_ping_node`: the guard is
`if QueueManager.is_node_running(message.sender_id) is None: return True`
— `is_node_running` returns a `bool`, so the guard never fires; the
handler then builds the PING response with the request id preserved,
sends it (raising `AttributeError` when the sender's queue is gone), and
calls `__add_node_id_to_routing_table` (whose tuple unpacking raises
after the insertion). -/
def Node.process_ping_node (nd : Node) (message : InMessage) (now : Nat) :
    PyResult (Node × Bool) :=
  if (QueueManager.is_node_running nd.rt.queues message.sender_id).isNone then
    ((nd, true), none)
  else
    let uid := nd.rt.uid_counter + 1
    let nd0 := { nd with rt := { nd.rt with uid_counter := uid } }
    let response : OutMessage :=
      ⟨uid, nd0.local_node_id, message.sender_id, message.request_id,
       .PING_NODE_RESPONSE, []⟩
    match QueueManager.get_queue nd0.rt.queues (some message.sender_id) with
    | none => ((nd0, true), some "AttributeError: NoneType object has no attribute put")
    | some _ =>
      let nd1 := { nd0 with responses := nd0.responses ++ [response] }
      match nd1.add_node_id_to_routing_table message.sender_id now with
      | (nd2, some e) => ((nd2, true), some e)
      | (nd2, none) => ((nd2, true), none)

/-- node.py `Node.__process_ping_node_response`: delete the supervised
record, then call `self.__routing_table.set_least_recently_seen(...)` — a
method `RoutingTable` does not define, so the attribute lookup raises. -/
def Node.process_ping_node_response (nd : Node) (message : InMessage) :
    PyResult (Node × Bool) :=
  let nd0 :=
    { nd with node_ping_records := supervisor_delete nd.node_ping_records message.request_id }
  ((nd0, true),
   some "AttributeError: RoutingTable object has no attribute set_least_recently_seen")

/-- node.py `Node.__messages_processor`: the dispatch table. -/
def Node.dispatch (nd : Node) (message : InMessage) (now : Nat) : PyResult (Node × Bool) :=
  match message.message_name with
  | .TERMINATE_NODE => nd.process_terminate_node message
  | .FIND_NODE => nd.process_find_node message now
  | .FIND_NODE_RESPONSE => nd.process_find_node_response message now
  | .PING_NODE => nd.process_ping_node message now
  | .PING_NODE_RESPONSE => nd.process_ping_node_response message
  | .DISCONNECT_NODE => nd.process_disconnect_node message
  | .RECONNECT_NODE => nd.process_reconnect_node message

/-- One iteration of node.py `Node.__listener` for one dequeued message:
the processor lookup always succeeds (the table is total); a connected
node dispatches, a disconnected node dispatches only `TERMINATE_NODE` and
`RECONNECT_NODE` and silently drops anything else. The returned `Bool` is
the keep-looping flag. -/
def Node.listener_step (nd : Node) (message : InMessage) (now : Nat) :
    PyResult (Node × Bool) :=
  if nd.connected then nd.dispatch message now
  else if message.message_name = .TERMINATE_NODE ∨
      message.message_name = .RECONNECT_NODE then
    nd.dispatch message now
  else ((nd, true), none)

/-! ### Concrete states used by witnesses and counterexamples -/

/-- Demo routing table: local id 5, 8-bit ids, k = 3, empty. -/
def rtDemo : RoutingTable :=
  RoutingTable.init 5 ⟨8, 3, 3, 3, 3, 1⟩ []

/-- The spec's scenario 2: local 5, L = 8, k = 3, after inserting
6, 7 and 4 (in this order) into the empty table. -/
def rtScenario2 : RoutingTable :=
  ((((RoutingTable.init 5 ⟨8, 3, 3, 3, 3, 1⟩ []).add_node 6 (some 1) 100).1.add_node
      7 (some 2) 101).1.add_node 4 (some 3) 102).1

/-- Full-bucket discovery scenario: local 5, L = 8, k = 1, bucket 1 full
with node 6, empty pools. -/
def rtFull : RoutingTable :=
  { config := ⟨8, 3, 1, 3, 3, 1⟩
    identifier := 5
    buckets := [⟨[]⟩, ⟨[⟨6, 50⟩]⟩, ⟨[]⟩, ⟨[]⟩, ⟨[]⟩, ⟨[]⟩, ⟨[]⟩, ⟨[]⟩]
    insertion_pools := [[], [], [], [], [], [], [], []]
    busy_flags := List.replicate 8 false
    ping_records := []
    queues := []
    sent := []
    uid_counter := 0
    request_counter := 0 }

/-- Pending-replacement scenario: local 5, L = 8, k = 1, bucket 1 full
with node 6 (last seen 50), candidate 7 pending in pool 1, the pool busy,
and the PING to 6 (request id 77, replacement 7) under supervision. -/
def rtPending : RoutingTable :=
  { config := ⟨8, 3, 1, 3, 3, 1⟩
    identifier := 5
    buckets := [⟨[]⟩, ⟨[⟨6, 50⟩]⟩, ⟨[]⟩, ⟨[]⟩, ⟨[]⟩, ⟨[]⟩, ⟨[]⟩, ⟨[]⟩]
    insertion_pools := [[], [(7, 77)], [], [], [], [], [], []]
    busy_flags := [false, true, false, false, false, false, false, false]
    ping_records := [⟨77, 999, ⟨1, 5, some 6, 77⟩, 7⟩]
    queues := [5, 6]
    sent := []
    uid_counter := 1
    request_counter := 77 }

/-- A disconnected node (local id 5). -/
def ndDisc : Node :=
  ⟨5, false, rtDemo, [], true, []⟩

/-- A connected node (local id 5) whose QueueManager registry only holds
itself: any other sender is no longer registered. -/
def ndConnected : Node :=
  ⟨5, true, { rtDemo with queues := [5] }, [], true, []⟩

/-- The same connected node with sender 7 still registered. -/
def ndConnectedReg : Node :=
  ⟨5, true, { rtDemo with queues := [5, 7] }, [], true, []⟩

/-! ### Generic list and bit-arithmetic helpers -/

theorem set_getD_self {α : Type} (l : List α) (i : Nat) (d : α) (h : i < l.length) :
    l.set i (l.getD i d) = l := by
  induction l generalizing i with
  | nil => simp at h
  | cons a t ih =>
    cases i with
    | zero => simp [List.getD]
    | succ j => simp only [List.set, List.getD_cons_succ]; rw [ih]; simpa using h

theorem getD_set_self {α : Type} (l : List α) (i : Nat) (a d : α) (h : i < l.length) :
    (l.set i a).getD i d = a := by
  rw [List.getD_eq_getElem?_getD, List.getElem?_set_self h]
  rfl

theorem getD_no_nodes (l : List Bucket) (i : Nat) (h : l.length ≤ i) :
    (l.getD i ⟨[]⟩).nodes = [] := by
  rw [List.getD_eq_default _ _ h]

theorem shiftRight_xor (a b i : Nat) : (a ^^^ b) >>> i = (a >>> i) ^^^ (b >>> i) :=
  Nat.eq_of_testBit_eq fun j => by
    simp [Nat.testBit_shiftRight, Nat.testBit_xor]

theorem xor_eq_one_iff (a b : Nat) : a ^^^ b = 1 ↔ a = b ^^^ 1 := by
  constructor
  · intro h
    have h2 : a ^^^ b ^^^ b = 1 ^^^ b := by rw [h]
    rwa [Nat.xor_assoc, Nat.xor_self, Nat.xor_zero, Nat.xor_comm 1 b] at h2
  · intro h
    subst h
    rw [Nat.xor_comm b 1, Nat.xor_assoc, Nat.xor_self, Nat.xor_zero]

theorem shiftRight_eq_one_iff (x i : Nat) :
    x >>> i = 1 ↔ 2 ^ i ≤ x ∧ x < 2 ^ (i + 1) := by
  rw [Nat.shiftRight_eq_div_pow]
  have hp : 0 < 2 ^ i := Nat.pos_pow_of_pos i (by norm_num)
  constructor
  · intro h
    refine ⟨?_, ?_⟩
    · have h1 : 1 ≤ x / 2 ^ i := by omega
      have := (Nat.le_div_iff_mul_le hp).mp h1
      omega
    · have h2 : x / 2 ^ i < 2 := by omega
      have := (Nat.div_lt_iff_lt_mul hp).mp h2
      rw [Nat.pow_succ]
      omega
  · rintro ⟨h1, h2⟩
    have hle : 1 ≤ x / 2 ^ i := (Nat.le_div_iff_mul_le hp).mpr (by omega)
    have hlt : x / 2 ^ i < 2 := by
      rw [Nat.pow_succ] at h2
      exact (Nat.div_lt_iff_lt_mul hp).mpr (by omega)
    omega

theorem shiftRight_eq_one_iff_log2 (x i : Nat) (hx : x ≠ 0) :
    x >>> i = 1 ↔ i = Nat.log2 x := by
  rw [shiftRight_eq_one_iff]
  constructor
  · rintro ⟨h1, h2⟩
    have hi1 : i ≤ Nat.log2 x := by
      by_contra hcon
      push_neg at hcon
      have hxi : x < 2 ^ i :=
        calc x < 2 ^ (Nat.log2 x + 1) := Nat.lt_log2_self
          _ ≤ 2 ^ i := Nat.pow_le_pow_right (by norm_num) hcon
      omega
    have hi2 : Nat.log2 x ≤ i := by
      have := (Nat.log2_lt hx).mpr h2
      omega
    omega
  · intro h
    subst h
    exact ⟨Nat.log2_self_le hx, Nat.lt_log2_self⟩

/-- The test `__find_bucket_index` runs at index `i` holds exactly when the
highest set bit of `identifier XOR local_id` sits at position `i`. -/
theorem bucket_mask_test (rt : RoutingTable) (c i : Nat) :
    (c >>> i = rt.bucket_mask i) ↔ (c ^^^ rt.identifier) >>> i = 1 := by
  rw [RoutingTable.bucket_mask, ← xor_eq_one_iff, ← shiftRight_xor]

/-- C3: for every L-bit id `c` other than the local id there is exactly one
bucket index `i < L` with `(c >> i) == mask[i]`; `__find_bucket_index`
returns it, and it is the position of the highest set bit of
`c XOR local_id`; for the local id itself the scan finds no index. -/
theorem claim_C3_bucket_partition (rt : RoutingTable) (c : Nat)
    (hL : rt.identifier < 2 ^ rt.config.id_length)
    (hc : c < 2 ^ rt.config.id_length)
    (hne : c ≠ rt.identifier) :
    (∃! i, i < rt.config.id_length ∧ c >>> i = rt.bucket_mask i) ∧
    rt.find_bucket_index c = some (Nat.log2 (c ^^^ rt.identifier)) ∧
    rt.find_bucket_index rt.identifier = none := by
  have hx0 : c ^^^ rt.identifier ≠ 0 := fun h => hne (Nat.xor_eq_zero.mp h)
  have hxlt : c ^^^ rt.identifier < 2 ^ rt.config.id_length := Nat.xor_lt_two_pow hc hL
  have hlog : Nat.log2 (c ^^^ rt.identifier) < rt.config.id_length :=
    (Nat.log2_lt hx0).mpr hxlt
  have key : ∀ i, (c >>> i = rt.bucket_mask i) ↔ i = Nat.log2 (c ^^^ rt.identifier) := by
    intro i
    rw [bucket_mask_test]
    exact shiftRight_eq_one_iff_log2 _ _ hx0
  refine ⟨⟨Nat.log2 (c ^^^ rt.identifier), ⟨hlog, (key _).mpr rfl⟩, ?_⟩, ?_, ?_⟩
  · rintro j ⟨hj1, hj2⟩
    exact (key j).mp hj2
  · unfold RoutingTable.find_bucket_index
    have hsome : ((List.range rt.config.id_length).find?
        (fun i => (c >>> i) ^^^ rt.bucket_mask i == 0)).isSome := by
      rw [List.find?_isSome]
      refine ⟨Nat.log2 (c ^^^ rt.identifier), List.mem_range.mpr hlog, ?_⟩
      simp only [beq_iff_eq, Nat.xor_eq_zero]
      exact (key _).mpr rfl
    obtain ⟨j, hj⟩ := Option.isSome_iff_exists.mp hsome
    have hpj := List.find?_some hj
    have hj2 : c >>> j = rt.bucket_mask j := by
      simpa only [beq_iff_eq, Nat.xor_eq_zero] using hpj
    rw [hj, (key j).mp hj2]
  · unfold RoutingTable.find_bucket_index
    rw [List.find?_eq_none]
    intro i _
    have hone : (rt.identifier >>> i) ^^^ rt.bucket_mask i = 1 := by
      rw [RoutingTable.bucket_mask, ← Nat.xor_assoc, Nat.xor_self, Nat.zero_xor]
    simp [hone]

/-- Witness for C3 at the spec's scenario: local id 5, L = 8, candidate 6
(bucket 1 = highest set bit of `6 XOR 5 = 3`). -/
theorem claim_C3_witness :
    (∃! i, i < rtDemo.config.id_length ∧ 6 >>> i = rtDemo.bucket_mask i) ∧
    rtDemo.find_bucket_index 6 = some (Nat.log2 (6 ^^^ rtDemo.identifier)) ∧
    rtDemo.find_bucket_index rtDemo.identifier = none :=
  claim_C3_bucket_partition rtDemo 6 (by decide) (by decide) (by decide)

/-- `Bucket.add_node` on an already-present id reports `(False, True)`
and leaves the bucket unchanged — in particular it does not refresh the
stored `last_seen_date`. -/
theorem Bucket.add_node_already_in (k : Nat) (b : Bucket) (nd : NodeData)
    (h : b.contains_node nd.identifier = true) :
    Bucket.add_node k b nd = ((false, true), b) := by
  unfold Bucket.add_node
  simp [h]

/-- `Bucket.add_node` on a full bucket that lacks the id reports
`(False, False)` and leaves the bucket unchanged. -/
theorem Bucket.add_node_full (k : Nat) (b : Bucket) (nd : NodeData)
    (habs : b.contains_node nd.identifier = false)
    (hfull : b.nodes.length = k) :
    Bucket.add_node k b nd = ((false, false), b) := by
  unfold Bucket.add_node
  simp [habs, hfull]

/-- C4 (amended): re-inserting an id already present in its bucket leaves
the whole routing-table state unchanged and raises nothing — in
particular the entry's `last_seen` timestamp is NOT set to the current
time (`add_node` has no touch on the already-present path). -/
theorem claim_C4_already_present (rt : RoutingTable) (node_id : Nat)
    (message : Option Nat) (now : Nat) (i : Nat)
    (hne : node_id ≠ rt.identifier)
    (hidx : rt.find_bucket_index node_id = some i)
    (hlt : i < rt.buckets.length)
    (hmem : Bucket.contains_node (rt.buckets.getD i ⟨[]⟩) node_id = true) :
    rt.add_node node_id message now = (rt, none) := by
  have hmem2 : (rt.buckets.getD i ⟨[]⟩).contains_node (NodeData.mk node_id now).identifier
      = true := hmem
  have hadd := Bucket.add_node_already_in rt.config.k (rt.buckets.getD i ⟨[]⟩)
    ⟨node_id, now⟩ hmem2
  have hset : rt.buckets.set i (rt.buckets.getD i ⟨[]⟩) = rt.buckets :=
    set_getD_self _ _ _ hlt
  cases message <;>
    simp only [RoutingTable.add_node, if_neg hne, hidx, hadd, hset, Bool.not_true,
      Bool.not_false, Bool.and_false, Bool.true_and, Bool.false_and, if_false,
      Bool.false_eq_true, ite_false]

/-- C4 counterexample: in scenario 2's table, re-adding the
already-present id 4 at time 200 does not set its `last_seen` to 200 (it
stays 102), contradicting the claimed touch. -/
theorem claim_C4_cex :
    ((rtScenario2.add_node 4 (some 9) 200).1.buckets.getD 0 ⟨[]⟩).nodes.map
      NodeData.last_seen_date ≠ [200] := by
  decide

/-- Witness for C4 at scenario 2's table. -/
theorem claim_C4_witness :
    rtScenario2.add_node 4 (some 9) 200 = (rtScenario2, none) :=
  claim_C4_already_present rtScenario2 4 (some 9) 200 0 (by decide) (by decide)
    (by decide) (by decide)

/-- `add_node` without a message context never touches the insertion
pools or the busy flags (the pool logic sits after the `message is None`
early return). -/
theorem add_node_no_message_frame (rt : RoutingTable) (node_id now : Nat) :
    (rt.add_node node_id none now).1.insertion_pools = rt.insertion_pools ∧
    (rt.add_node node_id none now).1.busy_flags = rt.busy_flags := by
  unfold RoutingTable.add_node
  split
  · exact ⟨rfl, rfl⟩
  · split
    · exact ⟨rfl, rfl⟩
    · exact ⟨rfl, rfl⟩

/-- `__evict_node` never touches the insertion pools. -/
theorem evict_node_pools (rt : RoutingTable) (node_id : Nat) :
    (rt.evict_node node_id).1.insertion_pools = rt.insertion_pools := by
  unfold RoutingTable.evict_node
  split
  · rfl
  · split
    · rfl
    · rfl

/-- `__thread_ping_no_response` (the PING-timeout callback) never touches
the insertion pools: it evicts, re-inserts with no message context, and
clears a busy flag. -/
theorem thread_ping_no_response_pools (rt : RoutingTable) (message : PingNode)
    (replacement now : Nat) :
    (rt.thread_ping_no_response message replacement now).1.insertion_pools =
      rt.insertion_pools := by
  unfold RoutingTable.thread_ping_no_response
  split
  · rfl
  next ev hev =>
    split
    next rt1 e heq =>
      have h1 : rt1.insertion_pools = rt.insertion_pools := by
        have := evict_node_pools rt ev
        rw [heq] at this
        exact this
      exact h1
    next rt1 heq =>
      have h1 : rt1.insertion_pools = rt.insertion_pools := by
        have := evict_node_pools rt ev
        rw [heq] at this
        exact this
      split
      next rt2 e heq2 =>
        have h2 : rt2.insertion_pools = rt1.insertion_pools := by
          have := (add_node_no_message_frame rt1 replacement now).1
          rw [heq2] at this
          exact this
        rw [h2, h1]
      next rt2 heq2 =>
        have h2 : rt2.insertion_pools = rt1.insertion_pools := by
          have := (add_node_no_message_frame rt1 replacement now).1
          rw [heq2] at this
          exact this
        split
        · rw [h2, h1]
        · rw [h2, h1]

/-- C10: `add_node` with no originating message leaves the insertion
pools (and busy flags) untouched — a full-bucket candidate is silently
discarded rather than queued — and the ping-timeout path, which re-adds
the replacement candidate with no message context, likewise never
re-queues anything into a pool. -/
theorem claim_C10_no_message_no_pool (rt : RoutingTable) (node_id now : Nat)
    (hne : node_id ≠ rt.identifier) :
    ((rt.add_node node_id none now).1.insertion_pools = rt.insertion_pools ∧
     (rt.add_node node_id none now).1.busy_flags = rt.busy_flags) ∧
    (∀ (message : PingNode) (replacement now2 : Nat),
      (rt.thread_ping_no_response message replacement now2).1.insertion_pools =
        rt.insertion_pools) := by
  exact ⟨add_node_no_message_frame rt node_id now,
    fun message replacement now2 => thread_ping_no_response_pools rt message replacement now2⟩

/-- Witness for C10: candidate 9 offered to scenario 2's table with no
message context; the pools stay empty and the timeout path preserves
them. -/
theorem claim_C10_witness :
    ((rtScenario2.add_node 9 none 300).1.insertion_pools = rtScenario2.insertion_pools ∧
     (rtScenario2.add_node 9 none 300).1.busy_flags = rtScenario2.busy_flags) ∧
    (∀ (message : PingNode) (replacement now2 : Nat),
      (rtScenario2.thread_ping_no_response message replacement now2).1.insertion_pools =
        rtScenario2.insertion_pools) :=
  claim_C10_no_message_no_pool rtScenario2 9 300 (by decide)

/-- `__find_bucket_index` only reads the local identifier and the
configuration. -/
theorem find_bucket_index_congr (rt1 rt2 : RoutingTable) (c : Nat)
    (h1 : rt1.identifier = rt2.identifier) (h2 : rt1.config = rt2.config) :
    rt1.find_bucket_index c = rt2.find_bucket_index c := by
  unfold RoutingTable.find_bucket_index RoutingTable.bucket_mask
  rw [h1, h2]

/-- One `add_node` call with a message context on a full bucket that
lacks the candidate: everything but the pool of that bucket is unchanged,
and the pool gains the candidate exactly when it is not yet one of its
keys. -/
theorem add_node_full_absent (rt : RoutingTable) (c rid now i : Nat)
    (hne : c ≠ rt.identifier)
    (hidx : rt.find_bucket_index c = some i)
    (hbl : i < rt.buckets.length)
    (habs : Bucket.contains_node (rt.buckets.getD i ⟨[]⟩) c = false)
    (hfull : (rt.buckets.getD i ⟨[]⟩).nodes.length = rt.config.k) :
    rt.add_node c (some rid) now =
      (if c ∈ (rt.insertion_pools.getD i []).map Prod.fst then (rt, none)
       else ({ rt with insertion_pools := rt.insertion_pools.set i (rt.insertion_pools.getD i [] ++ [(c, rid)]) }, none)) := by
  have habs2 : (rt.buckets.getD i ⟨[]⟩).contains_node (NodeData.mk c now).identifier
      = false := habs
  have hadd := Bucket.add_node_full rt.config.k (rt.buckets.getD i ⟨[]⟩)
    ⟨c, now⟩ habs2 hfull
  have hset : rt.buckets.set i (rt.buckets.getD i ⟨[]⟩) = rt.buckets :=
    set_getD_self _ _ _ hbl
  by_cases hc : c ∈ (rt.insertion_pools.getD i []).map Prod.fst
  · rw [if_pos hc]
    have hall : (rt.insertion_pools.getD i []).all (fun p => p.1 ≠ c) = false := by
      rcases List.mem_map.mp hc with ⟨p, hp, hpc⟩
      rw [Bool.eq_false_iff]
      intro hall
      exact absurd hpc (by simpa using (List.all_eq_true.mp hall p hp))
    simp only [RoutingTable.add_node, if_neg hne, hidx, hadd, hset, Bool.not_false,
      Bool.and_self, if_true, hall, Bool.false_eq_true, ite_false, ite_true]
  · rw [if_neg hc]
    have hall : (rt.insertion_pools.getD i []).all (fun p => p.1 ≠ c) = true := by
      rw [List.all_eq_true]
      intro p hp
      simp only [decide_eq_true_eq]
      intro hpc
      exact hc (List.mem_map.mpr ⟨p, hp, hpc⟩)
    simp only [RoutingTable.add_node, if_neg hne, hidx, hadd, hset, Bool.not_false,
      Bool.and_self, if_true, hall, ite_true]

/-- C1: on a full bucket with an absent, non-local candidate discovered
through a message, `add_node` queues the candidate in pool `i` only when
it is not yet there and sends no PING itself; iterating the same
discovery any number of times leaves the PING trace unchanged and keeps
at most one copy of the candidate in the pool. -/
theorem claim_C1_pool_dedup (rt : RoutingTable) (c rid now i : Nat)
    (hne : c ≠ rt.identifier)
    (hidx : rt.find_bucket_index c = some i)
    (hbl : i < rt.buckets.length)
    (hpl : i < rt.insertion_pools.length)
    (habs : Bucket.contains_node (rt.buckets.getD i ⟨[]⟩) c = false)
    (hfull : (rt.buckets.getD i ⟨[]⟩).nodes.length = rt.config.k)
    (hcount : (((rt.insertion_pools.getD i []).map Prod.fst).count c) ≤ 1) :
    (∀ n : Nat,
      ((((fun s => (RoutingTable.add_node s c (some rid) now).1)^[n] rt).insertion_pools.getD
          i []).map Prod.fst).count c ≤ 1 ∧
      ((fun s => (RoutingTable.add_node s c (some rid) now).1)^[n] rt).sent = rt.sent) ∧
    (c ∈ (rt.insertion_pools.getD i []).map Prod.fst →
      rt.add_node c (some rid) now = (rt, none)) := by
  constructor
  · have main : ∀ n : Nat,
        let s := (fun s => (RoutingTable.add_node s c (some rid) now).1)^[n] rt
        s.identifier = rt.identifier ∧ s.config = rt.config ∧ s.buckets = rt.buckets ∧
        s.sent = rt.sent ∧ s.insertion_pools.length = rt.insertion_pools.length ∧
        (((s.insertion_pools.getD i []).map Prod.fst).count c) ≤ 1 := by
      intro n
      induction n with
      | zero => exact ⟨rfl, rfl, rfl, rfl, rfl, hcount⟩
      | succ m ih =>
        obtain ⟨hid, hcfg, hbk, hsent, hplen, hcnt⟩ := ih
        set s := (fun s => (RoutingTable.add_node s c (some rid) now).1)^[m] rt with hs
        rw [Function.iterate_succ_apply']
        rw [← hs]
        have hidx2 : s.find_bucket_index c = some i := by
          rw [find_bucket_index_congr s rt c hid hcfg]
          exact hidx
        have hstep := add_node_full_absent s c rid now i (hid ▸ hne) hidx2
          (hbk ▸ hbl) (hbk ▸ habs) (by rw [hbk, hcfg]; exact hfull)
        by_cases hmem : c ∈ (s.insertion_pools.getD i []).map Prod.fst
        · rw [if_pos hmem] at hstep
          rw [hstep]
          exact ⟨hid, hcfg, hbk, hsent, hplen, hcnt⟩
        · rw [if_neg hmem] at hstep
          rw [hstep]
          refine ⟨hid, hcfg, hbk, hsent, ?_, ?_⟩
          · rw [List.length_set]
            exact hplen
          · rw [getD_set_self _ _ _ _ (by rw [hplen]; exact hpl)]
            rw [List.map_append, List.count_append]
            have h0 : ((s.insertion_pools.getD i []).map Prod.fst).count c = 0 :=
              List.count_eq_zero.mpr hmem
            rw [h0]
            simp
    intro n
    exact ⟨(main n).2.2.2.2.2, (main n).2.2.2.1⟩
  · intro hmem
    rw [add_node_full_absent rt c rid now i hne hidx hbl habs hfull, if_pos hmem]

/-- Witness for C1: candidate 7 offered three times to the full bucket 1
of `rtFull`; the pool holds it once and no PING was emitted. -/
theorem claim_C1_witness :
    ((((fun s => (RoutingTable.add_node s 7 (some 9) 100).1)^[3] rtFull).insertion_pools.getD
        1 []).map Prod.fst).count 7 ≤ 1 ∧
    ((fun s => (RoutingTable.add_node s 7 (some 9) 100).1)^[3] rtFull).sent = rtFull.sent :=
  (claim_C1_pool_dedup rtFull 7 9 100 1 (by decide) (by decide) (by decide) (by decide)
    (by decide) (by decide) (by decide)).1 3

/-- C5 (amended): scenario 2 of the spec with the corrected result — the
table holds B[0] = {4}, B[1] = {6, 7}, all other buckets empty, and
`find_closest(0, 3)` returns [4, 6, 7] (ascending XOR distance to 0); in
general `find_closest(target, n)` is the first `min(n, total)` elements
of a permutation of all stored ids sorted ascending by XOR distance to
the target. -/
theorem claim_C5_find_closest :
    ((rtScenario2.buckets.map Bucket.get_all_nodes_ids =
        [[4], [6, 7], [], [], [], [], [], []]) ∧
      rtScenario2.find_closest 0 3 = [4, 6, 7]) ∧
    (∀ (rt : RoutingTable) (target n : Nat), ∃ l : List Nat,
      l.Perm rt.all_ids ∧
      l.Pairwise (fun a b => target ^^^ a ≤ target ^^^ b) ∧
      rt.find_closest target n = l.take n ∧
      (rt.find_closest target n).length = min n rt.all_ids.length) := by
  constructor
  · exact ⟨by decide, by decide⟩
  · intro rt target n
    refine ⟨rt.all_ids.insertionSort (fun a b => target ^^^ a ≤ target ^^^ b), ?_, ?_, rfl, ?_⟩
    · exact List.perm_insertionSort _ _
    · haveI : IsTotal Nat (fun a b => target ^^^ a ≤ target ^^^ b) :=
        ⟨fun a b => le_total _ _⟩
      haveI : IsTrans Nat (fun a b => target ^^^ a ≤ target ^^^ b) :=
        ⟨fun a b c => le_trans⟩
      exact List.sorted_insertionSort _ _
    · unfold RoutingTable.find_closest
      rw [List.length_take,
        (List.perm_insertionSort (fun a b => target ^^^ a ≤ target ^^^ b)
          rt.all_ids).length_eq]

/-- C5 counterexample: `find_closest(0, 3)` on scenario 2's table is NOT
the spec's [4, 7, 6] (distances to 0 are the ids themselves, so the
ascending order is [4, 6, 7]). -/
theorem claim_C5_cex : rtScenario2.find_closest 0 3 ≠ [4, 7, 6] := by
  decide

/-- C2 (code evaluation at the failing input): with candidate 7 pending
in pool 1 and the PING to node 6 (request id 77) outstanding, processing
the matching PING_RESPONSE does cancel the supervised record, touch the
responder, clear the busy flag and keep the bucket membership — but it
does NOT remove the pending candidate: the insertion pools are untouched
and still hold 7. -/
theorem claim_C2_pool_not_removed :
    (rtPending.notify_ping_response ⟨2, 6, 5, 77⟩ 200).2 = none ∧
    (rtPending.notify_ping_response ⟨2, 6, 5, 77⟩ 200).1.ping_records = [] ∧
    ((rtPending.notify_ping_response ⟨2, 6, 5, 77⟩ 200).1.buckets.getD 1 ⟨[]⟩).nodes =
      [⟨6, 200⟩] ∧
    (rtPending.notify_ping_response ⟨2, 6, 5, 77⟩ 200).1.busy_flags =
      List.replicate 8 false ∧
    (rtPending.notify_ping_response ⟨2, 6, 5, 77⟩ 200).1.insertion_pools =
      rtPending.insertion_pools ∧
    (7, 77) ∈ (rtPending.notify_ping_response ⟨2, 6, 5, 77⟩ 200).1.insertion_pools.getD 1 []
    := by
  refine ⟨by decide, by decide, by decide, by decide, by decide, by decide⟩

/-- C6 (code evaluation at the failing input): on the empty bucket 0 of
an empty table, `__ping_for_replacement(0, 4)` raises (the
least-recently-seen id is `None` and is formatted with `{:d}`) instead of
inserting candidate 4: buckets, pools, busy flags and the PING trace are
all left unchanged, and only the two fresh-id counters moved. -/
theorem claim_C6_empty_bucket_error :
    (rtDemo.ping_for_replacement 0 4 77 100).2 =
      some "TypeError: unsupported format string passed to NoneType" ∧
    (rtDemo.ping_for_replacement 0 4 77 100).1.buckets = rtDemo.buckets ∧
    (rtDemo.ping_for_replacement 0 4 77 100).1.insertion_pools = rtDemo.insertion_pools ∧
    (rtDemo.ping_for_replacement 0 4 77 100).1.busy_flags = rtDemo.busy_flags ∧
    (rtDemo.ping_for_replacement 0 4 77 100).1.sent = [] := by
  refine ⟨by decide, by decide, by decide, by decide, by decide⟩

/-- C7 (code evaluation at the failing input): a PING from sender 7, who
is no longer registered with the QueueManager, is not skipped — the
`is None` guard applied to `is_node_running`'s boolean can never fire —
and the handler raises trying to put the response on the missing queue;
it neither returns normally nor stays silent by choice. For a registered
sender the response is sent (request id preserved) and the sender is
inserted, but the handler then raises unpacking `add_node`'s `None`
return. -/
theorem claim_C7_guard_never_fires :
    (QueueManager.is_node_running ndConnected.rt.queues 7).isNone = false ∧
    (ndConnected.process_ping_node ⟨1, 42, .PING_NODE, 5, 7, 0, []⟩ 100).2 =
      some "AttributeError: NoneType object has no attribute put" ∧
    (ndConnected.process_ping_node ⟨1, 42, .PING_NODE, 5, 7, 0, []⟩ 100).1.1.responses = [] ∧
    ((ndConnectedReg.process_ping_node ⟨1, 42, .PING_NODE, 5, 7, 0, []⟩ 100).1.1.responses.map
        OutMessage.request_id = [42] ∧
      ((ndConnectedReg.process_ping_node ⟨1, 42, .PING_NODE, 5, 7, 0,
          []⟩ 100).1.1.rt.buckets.getD 1 ⟨[]⟩).nodes.map NodeData.identifier = [7] ∧
      (ndConnectedReg.process_ping_node ⟨1, 42, .PING_NODE, 5, 7, 0, []⟩ 100).2 =
        some "TypeError: cannot unpack non-iterable NoneType object") := by
  refine ⟨by decide, by decide, by decide, by decide, by decide, by decide⟩

/-- C9: while the connected flag is false, the listener drops every
message other than TERMINATE and RECONNECT without touching the node
(routing table, pools, supervisor all unchanged), without replying and
while keeping the loop alive; TERMINATE and RECONNECT are still
dispatched to their processors. -/
theorem claim_C9_disconnected_filter (nd : Node) (h : nd.connected = false) :
    (∀ (message : InMessage) (now : Nat),
      message.message_name ≠ .TERMINATE_NODE → message.message_name ≠ .RECONNECT_NODE →
      nd.listener_step message now = ((nd, true), none)) ∧
    (∀ (message : InMessage) (now : Nat), message.message_name = .TERMINATE_NODE →
      nd.listener_step message now = nd.process_terminate_node message) ∧
    (∀ (message : InMessage) (now : Nat), message.message_name = .RECONNECT_NODE →
      nd.listener_step message now = nd.process_reconnect_node message) := by
  refine ⟨?_, ?_, ?_⟩
  · intro message now h1 h2
    unfold Node.listener_step
    rw [h]
    simp only [Bool.false_eq_true, if_false]
    rw [if_neg (by
      rintro (hc | hc)
      · exact h1 hc
      · exact h2 hc)]
  · intro message now h1
    unfold Node.listener_step
    rw [h]
    simp only [Bool.false_eq_true, if_false]
    rw [if_pos (Or.inl h1)]
    unfold Node.dispatch
    rw [h1]
  · intro message now h1
    unfold Node.listener_step
    rw [h]
    simp only [Bool.false_eq_true, if_false]
    rw [if_pos (Or.inr h1)]
    unfold Node.dispatch
    rw [h1]

/-- Witness for C9: a disconnected node drops a PING unchanged and still
dispatches RECONNECT. -/
theorem claim_C9_witness :
    ndDisc.listener_step ⟨1, 2, .PING_NODE, 5, 6, 0, []⟩ 100 = ((ndDisc, true), none) ∧
    ndDisc.listener_step ⟨1, 2, .RECONNECT_NODE, 5, 6, 0, []⟩ 100 =
      ndDisc.process_reconnect_node ⟨1, 2, .RECONNECT_NODE, 5, 6, 0, []⟩ :=
  ⟨(claim_C9_disconnected_filter ndDisc (by decide)).1 ⟨1, 2, .PING_NODE, 5, 6, 0, []⟩ 100
      (by decide) (by decide),
    (claim_C9_disconnected_filter ndDisc (by decide)).2.2 ⟨1, 2, .RECONNECT_NODE, 5, 6, 0, []⟩
      100 (by decide)⟩

/-- Entries read through `getD` come from the table (or from the empty
default bucket), so they avoid the local id in a `NoSelf` state. -/
theorem no_self_getD (rt : RoutingTable) (h : rt.NoSelf) (i : Nat) :
    ∀ nd ∈ (rt.buckets.getD i ⟨[]⟩).nodes, nd.identifier ≠ rt.identifier := by
  by_cases hi : i < rt.buckets.length
  · rw [List.getD_eq_getElem _ _ hi]
    exact h _ (List.getElem_mem hi)
  · rw [List.getD_eq_default _ _ (Nat.le_of_not_lt hi)]
    intro nd hnd
    simp at hnd

/-- A state equal to `rt` except that bucket `i` was replaced by `b2`
(whose entries avoid the local id) is still `NoSelf`. -/
theorem no_self_set (rt rt2 : RoutingTable) (i : Nat) (b2 : Bucket)
    (h : rt.NoSelf)
    (hid : rt2.identifier = rt.identifier)
    (hb : rt2.buckets = rt.buckets.set i b2)
    (hb2 : ∀ nd ∈ b2.nodes, nd.identifier ≠ rt.identifier) :
    rt2.NoSelf := by
  intro b hbmem nd hnd
  rw [hid]
  rw [hb] at hbmem
  rcases List.mem_or_eq_of_mem_set hbmem with hmem | rfl
  · exact h b hmem nd hnd
  · exact hb2 nd hnd

/-- The bucket returned by `Bucket.add_node` is the old bucket or the old
bucket with the new entry appended. -/
theorem Bucket.add_node_res_nodes (k : Nat) (b : Bucket) (nd : NodeData) :
    (Bucket.add_node k b nd).2.nodes = b.nodes ∨
    (Bucket.add_node k b nd).2.nodes = b.nodes ++ [nd] := by
  unfold Bucket.add_node
  split
  · left; rfl
  · split
    · left; rfl
    · right; rfl

/-- `add_node` preserves the no-self invariant (it inserts only ids that
passed the non-local check) and never changes the local identifier. -/
theorem add_node_no_self (rt : RoutingTable) (n : Nat) (m : Option Nat) (now : Nat)
    (h : rt.NoSelf) :
    (rt.add_node n m now).1.NoSelf ∧ (rt.add_node n m now).1.identifier = rt.identifier := by
  unfold RoutingTable.add_node
  by_cases hn : n = rt.identifier
  · rw [if_pos hn]
    exact ⟨h, rfl⟩
  · rw [if_neg hn]
    split
    · exact ⟨h, rfl⟩
    next i hfind =>
      have hb2 : ∀ nd ∈ (Bucket.add_node rt.config.k (rt.buckets.getD i ⟨[]⟩)
          ⟨n, now⟩).2.nodes, nd.identifier ≠ rt.identifier := by
        intro nd hnd
        rcases Bucket.add_node_res_nodes rt.config.k (rt.buckets.getD i ⟨[]⟩)
            ⟨n, now⟩ with he | he
        · rw [he] at hnd
          exact no_self_getD rt h i nd hnd
        · rw [he, List.mem_append] at hnd
          rcases hnd with hnd | hnd
          · exact no_self_getD rt h i nd hnd
          · simp only [List.mem_singleton] at hnd
            subst hnd
            exact hn
      split
      · exact ⟨no_self_set rt _ i _ h rfl rfl hb2, rfl⟩
      · dsimp only
        split
        · split
          · exact ⟨no_self_set rt _ i _ h rfl rfl hb2, rfl⟩
          · exact ⟨no_self_set rt _ i _ h rfl rfl hb2, rfl⟩
        · exact ⟨no_self_set rt _ i _ h rfl rfl hb2, rfl⟩

/-- `__evict_node` preserves the no-self invariant (it only removes) and
keeps the local identifier. -/
theorem evict_node_no_self (rt : RoutingTable) (n : Nat) (h : rt.NoSelf) :
    (rt.evict_node n).1.NoSelf ∧ (rt.evict_node n).1.identifier = rt.identifier := by
  unfold RoutingTable.evict_node
  split
  · exact ⟨h, rfl⟩
  next i hfind =>
    split
    next e heq => exact ⟨h, rfl⟩
    next b2 heq =>
      refine ⟨no_self_set rt _ i b2 h rfl rfl ?_, rfl⟩
      intro nd hnd
      unfold Bucket.remove_node at heq
      by_cases hc : Bucket.contains_node (rt.buckets.getD i ⟨[]⟩) n = true
      · rw [if_pos hc] at heq
        cases heq
        exact no_self_getD rt h i nd (List.mem_of_mem_filter hnd)
      · rw [if_neg (by simpa using hc)] at heq
        cases heq

/-- `__set_most_recently_seen` preserves the no-self invariant (it only
rewrites timestamps, never identifiers) and keeps the local identifier. -/
theorem set_most_no_self (rt : RoutingTable) (n : Nat) (bi : Option Nat) (now : Nat)
    (h : rt.NoSelf) :
    (rt.set_most_recently_seen_rt n bi now).1.NoSelf ∧
    (rt.set_most_recently_seen_rt n bi now).1.identifier = rt.identifier := by
  unfold RoutingTable.set_most_recently_seen_rt
  split
  · exact ⟨h, rfl⟩
  next i heq =>
    refine ⟨no_self_set rt _ i _ h rfl rfl ?_, rfl⟩
    intro nd hnd
    unfold Bucket.set_most_recently_seen at hnd
    simp only at hnd
    rcases List.mem_map.mp hnd with ⟨nd0, hnd0, hmap⟩
    have hid0 := no_self_getD rt h i nd0 hnd0
    by_cases hmatch : nd0.identifier = n
    · rw [if_pos hmatch] at hmap
      rw [← hmap]
      exact hid0
    · rw [if_neg hmatch] at hmap
      rw [← hmap]
      exact hid0

/-- `notify_ping_response` preserves the no-self invariant and keeps the
local identifier. -/
theorem notify_no_self (rt : RoutingTable) (msg : PingNodeResponse) (now : Nat)
    (h : rt.NoSelf) :
    (rt.notify_ping_response msg now).1.NoSelf ∧
    (rt.notify_ping_response msg now).1.identifier = rt.identifier := by
  have h1 : RoutingTable.NoSelf
      { rt with ping_records := supervisor_delete rt.ping_records msg.request_id } := h
  have hpair := set_most_no_self
    { rt with ping_records := supervisor_delete rt.ping_records msg.request_id }
    msg.sender_id
    (RoutingTable.find_bucket_index
      { rt with ping_records := supervisor_delete rt.ping_records msg.request_id }
      msg.sender_id)
    now h1
  unfold RoutingTable.notify_ping_response
  dsimp only
  split
  next rt2 e heq =>
    rw [heq] at hpair
    exact hpair
  next rt2 heq =>
    rw [heq] at hpair
    split
    · exact hpair
    · exact hpair

/-- `__thread_ping_no_response` preserves the no-self invariant (evict,
re-insert via the guarded `add_node`, clear a busy flag) and keeps the
local identifier. -/
theorem thread_ping_no_response_no_self (rt : RoutingTable) (message : PingNode)
    (replacement now : Nat) (h : rt.NoSelf) :
    (rt.thread_ping_no_response message replacement now).1.NoSelf ∧
    (rt.thread_ping_no_response message replacement now).1.identifier = rt.identifier := by
  unfold RoutingTable.thread_ping_no_response
  split
  · exact ⟨h, rfl⟩
  next ev hev =>
    split
    next rt1 e heq =>
      have hpair := evict_node_no_self rt ev h
      rw [heq] at hpair
      exact hpair
    next rt1 heq =>
      have hpair1 := evict_node_no_self rt ev h
      rw [heq] at hpair1
      split
      next rt2 e heq2 =>
        have hpair2 := add_node_no_self rt1 replacement none now hpair1.1
        rw [heq2] at hpair2
        exact ⟨hpair2.1, hpair2.2.trans hpair1.2⟩
      next rt2 heq2 =>
        have hpair2 := add_node_no_self rt1 replacement none now hpair1.1
        rw [heq2] at hpair2
        split
        · exact ⟨hpair2.1, hpair2.2.trans hpair1.2⟩
        next i hfind =>
          constructor
          · intro b hb nd hnd
            exact hpair2.1 b hb nd hnd
          · exact hpair2.2.trans hpair1.2

/-- `__ping_for_replacement` preserves the no-self invariant and keeps
the local identifier (the send path never touches a bucket; the missing
queue path goes through `__thread_ping_no_response`). -/
theorem ping_for_replacement_no_self (rt : RoutingTable) (bucket_idx c rid now : Nat)
    (h : rt.NoSelf) :
    (rt.ping_for_replacement bucket_idx c rid now).1.NoSelf ∧
    (rt.ping_for_replacement bucket_idx c rid now).1.identifier = rt.identifier := by
  unfold RoutingTable.ping_for_replacement
  dsimp only
  split
  · split
    · exact ⟨h, rfl⟩
    · have hpair := thread_ping_no_response_no_self
        { rt with uid_counter := rt.uid_counter + 1,
                  request_counter := rt.request_counter + 1 }
        ⟨rt.uid_counter + 1, rt.identifier,
          RoutingTable.get_least_recently_seen
            { rt with uid_counter := rt.uid_counter + 1 } bucket_idx,
          rt.request_counter + 1⟩ c now h
      exact hpair
  · split
    next e heq =>
      exact ⟨(fun b hb nd hnd => h b hb nd hnd), rfl⟩
    next recs heq =>
      exact ⟨(fun b hb nd hnd => h b hb nd hnd), rfl⟩

/-- One scanner pass over one bucket preserves the no-self invariant and
keeps the local identifier. -/
theorem scan_bucket_no_self (rt : RoutingTable) (bucket_id now : Nat) (h : rt.NoSelf) :
    (rt.scan_bucket bucket_id now).1.NoSelf ∧
    (rt.scan_bucket bucket_id now).1.identifier = rt.identifier := by
  unfold RoutingTable.scan_bucket
  split
  · exact ⟨h, rfl⟩
  · split
    · exact ⟨h, rfl⟩
    next nid rid heq =>
      have hbusy : RoutingTable.NoSelf
          { rt with busy_flags := rt.busy_flags.set bucket_id true } := h
      exact ping_for_replacement_no_self
        { rt with busy_flags := rt.busy_flags.set bucket_id true }
        bucket_id nid rid now hbusy

/-- Every routing-table entry point preserves the no-self invariant. -/
theorem applyOp_no_self (rt : RoutingTable) (op : RTOp) (h : rt.NoSelf) :
    (rt.applyOp op).NoSelf := by
  cases op with
  | add n m now => exact (add_node_no_self rt n m now h).1
  | notify msg now => exact (notify_no_self rt msg now h).1
  | scan b now => exact (scan_bucket_no_self rt b now h).1
  | timeout msg r now => exact (thread_ping_no_response_no_self rt msg r now h).1

/-- The freshly constructed routing table satisfies the no-self
invariant: every bucket is empty. -/
theorem init_no_self (identifier : Nat) (config : KadConfig) (queues : List Nat) :
    (RoutingTable.init identifier config queues).NoSelf := by
  intro b hb nd hnd
  have hrep := (List.mem_replicate.mp hb).2
  rw [hrep] at hnd
  simp at hnd

/-- The no-self invariant holds along any run of entry points. -/
theorem run_no_self (rt : RoutingTable) (ops : List RTOp) (h : rt.NoSelf) :
    (rt.run ops).NoSelf := by
  induction ops generalizing rt with
  | nil => exact h
  | cons op rest ih => exact ih _ (applyOp_no_self rt op h)

/-- C8: in every reachable routing-table state (any sequence of entry
points from a freshly constructed table) the local id is in none of the
buckets, and `add_node` called with the local id raises and returns with
the state unchanged. -/
theorem claim_C8_no_self_invariant :
    (∀ (identifier : Nat) (config : KadConfig) (queues : List Nat) (ops : List RTOp),
      RoutingTable.NoSelf ((RoutingTable.init identifier config queues).run ops)) ∧
    (∀ (rt : RoutingTable) (m : Option Nat) (now : Nat),
      rt.add_node rt.identifier m now =
        (rt, some "Exception: the local node should not be inserted into the routing table"))
    := by
  constructor
  · intro identifier config queues ops
    exact run_no_self _ ops (init_no_self identifier config queues)
  · intro rt m now
    unfold RoutingTable.add_node
    rw [if_pos rfl]
